import Mathlib

/-!
Verification of the dispatch / validation / access-control pipeline of the
GitLab MCP server (file src/index.ts of the repository).  The handler for
tool invocations is embedded shallowly: the tool catalog, the read-only
gate, the per-operation cross-field validation and the dispatch switch are
translated from the source; the zod input schemas (src/schemas.ts), the
GitLab API client (src/gitlab-api.ts) and the response formatters
(src/formatters.ts) are external collaborators that are not part of the
sources, so they appear as abstract parameters (the `External` structure
and the `Backend` function), and the date validator from src/utils.ts is
modelled from the spec.  Every backend interaction is recorded in a trace,
so that claims about which backend calls an invocation issues are
statements about that trace.
-/

namespace Gitlab

/-- An untyped key-to-value bag: the raw `arguments` object of a request and
the opaque option bags that the dispatch switch forwards unchanged. -/
abbrev Obj : Type := List (String × String)

/-- The raw arguments of an invocation (`request.params.arguments`). -/
abbrev RawArgs : Type := Obj

/-! ## Date validation (modelled from the spec)

The function `isValidISODate` lives in src/utils.ts, which is not among the
repository sources provided; it is modelled from the spec, section 4.4:
a calendar timestamp must parse as a valid calendar date-time
(year-month-day, optional time-of-day, explicit or implied UTC offset).
The model accepts `YYYY-MM-DD`, optionally followed by `THH:MM:SS` and an
optional trailing `Z`, with month, day (leap years included), hour, minute
and second range-checked. -/

/-- Reads one decimal digit. -/
def digitVal (c : Char) : Option Nat :=
  if c.isDigit then some (c.toNat - 48) else none

/-- Reads exactly two decimal digits. -/
def twoDigits : List Char → Option (Nat × List Char)
  | a :: b :: rest =>
    match digitVal a, digitVal b with
    | some x, some y => some (10 * x + y, rest)
    | _, _ => none
  | _ => none

/-- Reads exactly four decimal digits. -/
def fourDigits (l : List Char) : Option (Nat × List Char) :=
  match twoDigits l with
  | some (hi, rest) =>
    match twoDigits rest with
    | some (lo, rest2) => some (100 * hi + lo, rest2)
    | none => none
  | none => none

/-- Consumes one expected character. -/
def expectChar (c : Char) : List Char → Option (List Char)
  | x :: rest => if x == c then some rest else none
  | [] => none

/-- Gregorian leap year. -/
def isLeapYear (y : Nat) : Bool :=
  (y % 4 == 0 && y % 100 != 0) || y % 400 == 0

/-- Days in a month of a given year. -/
def daysInMonth (y m : Nat) : Nat :=
  if m == 2 then (if isLeapYear y then 29 else 28)
  else if m == 4 || m == 6 || m == 9 || m == 11 then 30
  else 31

/-- Valid `HH:MM:SS` optionally followed by `Z`. -/
def parseTimePart (l : List Char) : Bool :=
  match twoDigits l with
  | none => false
  | some (h, r1) =>
    if h ≥ 24 then false else
    match expectChar ':' r1 with
    | none => false
    | some r2 =>
      match twoDigits r2 with
      | none => false
      | some (mi, r3) =>
        if mi ≥ 60 then false else
        match expectChar ':' r3 with
        | none => false
        | some r4 =>
          match twoDigits r4 with
          | none => false
          | some (se, r5) =>
            if se ≥ 60 then false else
            match r5 with
            | [] => true
            | ['Z'] => true
            | _ => false

/-- Modelled from the spec: the calendar date-time validator of
src/utils.ts (`isValidISODate`), see the section comment above. -/
def isValidISODate (s : String) : Bool :=
  match fourDigits s.data with
  | none => false
  | some (y, r1) =>
    match expectChar '-' r1 with
    | none => false
    | some r2 =>
      match twoDigits r2 with
      | none => false
      | some (m, r3) =>
        if m < 1 || m > 12 then false else
        match expectChar '-' r3 with
        | none => false
        | some r4 =>
          match twoDigits r4 with
          | none => false
          | some (d, r5) =>
            if d < 1 || d > daysInMonth y m then false else
            match r5 with
            | [] => true
            | 'T' :: rest => parseTimePart rest
            | _ => false

/-! ## Tool catalog (ALL_TOOLS of src/index.ts)

Each entry keeps the name, description and read-only flag of the source.
The input schema of an entry is `createJsonSchema` applied to an opaque zod
schema; it is modelled as the schema's name, an opaque token. -/

/-- One entry of the tool catalog. -/
structure Tool where
  name : String
  description : String
  inputSchema : String
  readOnly : Bool
deriving DecidableEq

/-- The full catalog, in the registration order of src/index.ts. -/
def ALL_TOOLS : List Tool := [
  ⟨"create_or_update_file", "Create or update a single file in a GitLab project", "CreateOrUpdateFileSchema", false⟩,
  ⟨"search_repositories", "Search for GitLab projects", "SearchRepositoriesSchema", true⟩,
  ⟨"create_repository", "Create a new GitLab project", "CreateRepositorySchema", false⟩,
  ⟨"get_file_contents", "Get the contents of a file or directory from a GitLab project", "GetFileContentsSchema", true⟩,
  ⟨"push_files", "Push multiple files to a GitLab project in a single commit", "PushFilesSchema", false⟩,
  ⟨"create_issue", "Create a new issue in a GitLab project", "CreateIssueSchema", false⟩,
  ⟨"create_merge_request", "Create a new merge request in a GitLab project", "CreateMergeRequestSchema", false⟩,
  ⟨"fork_repository", "Fork a GitLab project to your account or specified namespace", "ForkRepositorySchema", false⟩,
  ⟨"create_branch", "Create a new branch in a GitLab project", "CreateBranchSchema", false⟩,
  ⟨"list_group_projects", "List all projects (repositories) within a specific GitLab group", "ListGroupProjectsSchema", true⟩,
  ⟨"get_project_events", "Get recent events/activities for a GitLab project", "GetProjectEventsSchema", true⟩,
  ⟨"list_commits", "Get commit history for a GitLab project", "ListCommitsSchema", true⟩,
  ⟨"list_issues", "Get issues for a GitLab project", "ListIssuesSchema", true⟩,
  ⟨"list_merge_requests", "Get merge requests for a GitLab project", "ListMergeRequestsSchema", true⟩,
  ⟨"list_project_wiki_pages", "List all wiki pages for a GitLab project", "ListProjectWikiPagesSchema", true⟩,
  ⟨"get_project_wiki_page", "Get a specific wiki page for a GitLab project", "GetProjectWikiPageSchema", true⟩,
  ⟨"create_project_wiki_page", "Create a new wiki page for a GitLab project", "CreateProjectWikiPageSchema", false⟩,
  ⟨"edit_project_wiki_page", "Edit an existing wiki page for a GitLab project", "EditProjectWikiPageSchema", false⟩,
  ⟨"delete_project_wiki_page", "Delete a wiki page from a GitLab project", "DeleteProjectWikiPageSchema", false⟩,
  ⟨"upload_project_wiki_attachment", "Upload an attachment to a GitLab project wiki", "UploadProjectWikiAttachmentSchema", false⟩,
  ⟨"list_group_wiki_pages", "List all wiki pages for a GitLab group", "ListGroupWikiPagesSchema", true⟩,
  ⟨"get_group_wiki_page", "Get a specific wiki page for a GitLab group", "GetGroupWikiPageSchema", true⟩,
  ⟨"create_group_wiki_page", "Create a new wiki page for a GitLab group", "CreateGroupWikiPageSchema", false⟩,
  ⟨"edit_group_wiki_page", "Edit an existing wiki page for a GitLab group", "EditGroupWikiPageSchema", false⟩,
  ⟨"delete_group_wiki_page", "Delete a wiki page from a GitLab group", "DeleteGroupWikiPageSchema", false⟩,
  ⟨"upload_group_wiki_attachment", "Upload an attachment to a GitLab group wiki", "UploadGroupWikiAttachmentSchema", false⟩,
  ⟨"list_project_members", "List all members of a GitLab project (including inherited members)", "ListProjectMembersSchema", true⟩,
  ⟨"list_group_members", "List all members of a GitLab group (including inherited members)", "ListGroupMembersSchema", true⟩,
  ⟨"list_issue_notes", "Fetch all comments and system notes for a GitLab issue", "ListIssueNotesSchema", true⟩,
  ⟨"list_issue_discussions", "Fetch all discussions (threaded comments) for a GitLab issue", "ListIssueDiscussionsSchema", true⟩,
  ⟨"list_pipelines", "List pipelines for a GitLab project", "ListPipelinesSchema", true⟩,
  ⟨"get_pipeline", "Get details of a specific pipeline", "GetPipelineSchema", true⟩,
  ⟨"get_pipeline_jobs", "List jobs in a specific pipeline", "GetPipelineJobsSchema", true⟩,
  ⟨"get_job", "Get details of a specific job", "GetJobSchema", true⟩,
  ⟨"get_job_log", "Get job execution log/trace", "GetJobLogSchema", true⟩,
  ⟨"create_pipeline", "Create a new pipeline", "CreatePipelineSchema", false⟩,
  ⟨"retry_pipeline", "Retry a failed pipeline", "RetryPipelineSchema", false⟩,
  ⟨"cancel_pipeline", "Cancel a running pipeline", "CancelPipelineSchema", false⟩,
  ⟨"retry_job", "Retry a specific job", "RetryJobSchema", false⟩,
  ⟨"cancel_job", "Cancel a running job", "CancelJobSchema", false⟩,
  ⟨"list_projects", "List GitLab projects", "ListProjectsSchema", true⟩,
  ⟨"get_project", "Get project details", "GetProjectSchema", true⟩,
  ⟨"validate_ci_yaml", "Validate GitLab CI YAML configuration using GitLab's lint API", "ValidateCIYamlSchema", true⟩,
  ⟨"get_project_runners", "Get all runners available for a specific project", "GetProjectRunnersSchema", true⟩,
  ⟨"list_shared_runners", "List all shared runners available in the GitLab instance", "ListSharedRunnersSchema", true⟩,
  ⟨"get_runner_details", "Get detailed information about a specific runner", "GetRunnerDetailsSchema", true⟩,
  ⟨"enable_project_runner", "Enable a specific runner for a project", "EnableProjectRunnerSchema", false⟩,
  ⟨"disable_project_runner", "Disable a specific runner for a project", "DisableProjectRunnerSchema", false⟩,
  ⟨"register_runner", "Register a new runner with GitLab", "RegisterRunnerSchema", false⟩,
  ⟨"validate_runner_tags", "Validate runner tags and check available tags for a project", "ValidateRunnerTagsSchema", true⟩,
  ⟨"update_runner_settings", "Update settings and configuration for a specific runner", "UpdateRunnerSettingsSchema", false⟩,
  ⟨"get_runner_jobs", "Get job history and execution details for a specific runner", "GetRunnerJobsSchema", true⟩,
  ⟨"runner_health_check", "Perform health check and status verification for a runner", "RunnerHealthCheckSchema", true⟩]

/-- Descriptor lookup, `ALL_TOOLS.find(t => t.name === request.params.name)`. -/
def lookupTool (name : String) : Option Tool :=
  ALL_TOOLS.find? (fun t => t.name == name)

/-- What the listing request returns per entry (name, description,
inputSchema — the readOnly flag is stripped by the map). -/
structure ToolDescriptor where
  name : String
  description : String
  inputSchema : String
deriving DecidableEq

/-- Strips a catalog entry to its advertised descriptor. -/
def stripTool (t : Tool) : ToolDescriptor :=
  ⟨t.name, t.description, t.inputSchema⟩

/-- The ListTools handler: under read-only mode, filter to the read-only
entries, else return the full catalog (src/index.ts lines 459-472). -/
def listTools (readOnlyMode : Bool) : List ToolDescriptor :=
  if readOnlyMode then
    (ALL_TOOLS.filter (fun t => t.readOnly)).map stripTool
  else
    ALL_TOOLS.map stripTool

/-! ## Parsed argument records

One record type per shape the dispatch switch destructures.  Identifiers
pass through as opaque strings; numeric ids are integers; option bags that
the switch forwards unchanged (object rest spreads and whole-args calls)
are opaque `Obj` values.  The zod schemas that produce these records live
in src/schemas.ts, which is not among the provided sources; they appear
below as abstract parse functions in the `External` structure. -/

/-- Arguments of fork_repository. -/
structure ForkArgs where
  project_id : String
  namespace_ : Option String

/-- Arguments of create_branch. -/
structure BranchArgs where
  project_id : String
  branch : String
  ref : Option String

/-- Arguments of search_repositories. -/
structure SearchArgs where
  search : String
  page : Option Int
  per_page : Option Int

/-- Arguments of get_file_contents. -/
structure FileContentsArgs where
  project_id : String
  file_path : String
  ref : Option String

/-- Arguments of create_or_update_file. -/
structure CreateOrUpdateFileArgs where
  project_id : String
  file_path : String
  content : String
  commit_message : String
  branch : String
  previous_path : Option String

/-- One entry of the push_files file list. -/
structure FileOp where
  path : String
  content : String
deriving DecidableEq

/-- Arguments of push_files. -/
structure PushFilesArgs where
  project_id : String
  commit_message : String
  branch : String
  files : List FileOp

/-- Arguments destructured as a project id plus an option bag
(create_issue, create_merge_request, list_project_members, list_pipelines,
get_project_runners). -/
structure ProjectOptsArgs where
  project_id : String
  options : Obj

/-- Arguments destructured as a group id plus an option bag
(list_group_projects, list_group_members). -/
structure GroupOptsArgs where
  group_id : String
  options : Obj

/-- Arguments of get_project_events: project id, the two pagination fields
the cross-field validator reads, and the rest of the option bag. -/
structure EventsArgs where
  project_id : String
  page : Option Int
  per_page : Option Int
  options : Obj

/-- Arguments of list_commits. -/
structure CommitsArgs where
  project_id : String
  page : Option Int
  per_page : Option Int
  since : Option String
  until_ : Option String
  options : Obj

/-- Arguments of list_issues and list_merge_requests. -/
structure IssuesArgs where
  project_id : String
  page : Option Int
  per_page : Option Int
  created_after : Option String
  created_before : Option String
  updated_after : Option String
  updated_before : Option String
  options : Obj

/-- Arguments of the wiki-page listing operations. -/
structure WikiListArgs where
  id : String
  with_content : Option Bool

/-- Arguments of the wiki-page get operations. -/
structure WikiGetArgs where
  id : String
  slug : String
  render_html : Option Bool
  version : Option String

/-- Arguments of the wiki-page create operations. -/
structure WikiCreateArgs where
  id : String
  title : String
  content : String
  format : Option String

/-- Arguments of the wiki-page edit operations. -/
structure WikiEditArgs where
  id : String
  slug : String
  title : Option String
  content : Option String
  format : Option String

/-- Arguments of the wiki-page delete operations. -/
structure WikiDeleteArgs where
  id : String
  slug : String

/-- Arguments of the wiki attachment upload operations. -/
structure WikiAttachArgs where
  id : String
  file_path : String
  content : String
  branch : Option String

/-- Arguments of list_issue_notes. -/
structure NotesArgs where
  project_id : String
  issue_iid : Int
  sort : Option String
  order_by : Option String
  page : Option Int
  per_page : Option Int

/-- Arguments of list_issue_discussions. -/
structure DiscussionsArgs where
  project_id : String
  issue_iid : Int
  page : Option Int
  per_page : Option Int

/-- Arguments carrying a project id and a pipeline id
(get_pipeline, retry_pipeline, cancel_pipeline). -/
structure PipelineIdArgs where
  project_id : String
  pipeline_id : Int

/-- Arguments of get_pipeline_jobs. -/
structure PipelineJobsArgs where
  project_id : String
  pipeline_id : Int
  scope : Option String

/-- Arguments carrying a project id and a job id
(get_job, get_job_log, retry_job, cancel_job). -/
structure JobIdArgs where
  project_id : String
  job_id : Int

/-- Arguments of create_pipeline. -/
structure CreatePipelineArgs where
  project_id : String
  ref : String
  variables_ : Option Obj

/-- Arguments carrying only a project id (get_project). -/
structure ProjectIdArgs where
  project_id : String

/-- Arguments of validate_ci_yaml. -/
structure ValidateCIArgs where
  project_id : String
  content : String
  include_merged_yaml : Option Bool

/-- Arguments carrying only a runner id
(get_runner_details, runner_health_check). -/
structure RunnerIdArgs where
  runner_id : Int

/-- Arguments of enable_project_runner and disable_project_runner. -/
structure ProjectRunnerArgs where
  project_id : String
  runner_id : Int

/-- Arguments of register_runner. -/
structure RegisterRunnerArgs where
  registration_token : String
  description : Option String
  tags : Option (List String)

/-- Arguments of validate_runner_tags. -/
structure ValidateTagsArgs where
  project_id : String
  tags : List String

/-- Arguments of update_runner_settings. -/
structure RunnerSettingsArgs where
  runner_id : Int
  settings : Obj

/-- Arguments of get_runner_jobs. -/
structure RunnerJobsArgs where
  runner_id : Int
  options : Obj

/-! ## Backend calls

One constructor per method of the GitLab API client that the dispatch
switch invokes, carrying the arguments the switch passes.  The client
itself (src/gitlab-api.ts) is an external collaborator: its behaviour is
an abstract function `Backend` from calls to results, where a result is an
opaque serialized value or an error message. -/

/-- A call to the GitLab API client, as issued by the dispatch switch. -/
inductive BackendCall where
  | forkProject (project_id : String) (namespace_ : Option String)
  | getDefaultBranchRef (project_id : String)
  | createBranch (project_id : String) (name : String) (ref : String)
  | searchProjects (search : String) (page : Option Int) (per_page : Option Int)
  | createRepository (args : Obj)
  | getFileContents (project_id : String) (file_path : String) (ref : Option String)
  | createOrUpdateFile (project_id : String) (file_path : String) (content : String)
      (commit_message : String) (branch : String) (previous_path : Option String)
  | createIssue (project_id : String) (options : Obj)
  | createMergeRequest (project_id : String) (options : Obj)
  | listGroupProjects (group_id : String) (options : Obj)
  | getProjectEvents (project_id : String) (page : Option Int) (per_page : Option Int) (options : Obj)
  | listCommits (project_id : String) (page : Option Int) (per_page : Option Int)
      (since : Option String) (until_ : Option String) (options : Obj)
  | listIssues (project_id : String) (page : Option Int) (per_page : Option Int)
      (created_after : Option String) (created_before : Option String)
      (updated_after : Option String) (updated_before : Option String) (options : Obj)
  | listMergeRequests (project_id : String) (page : Option Int) (per_page : Option Int)
      (created_after : Option String) (created_before : Option String)
      (updated_after : Option String) (updated_before : Option String) (options : Obj)
  | listProjectWikiPages (project_id : String) (with_content : Option Bool)
  | getProjectWikiPage (project_id : String) (slug : String) (render_html : Option Bool) (version : Option String)
  | createProjectWikiPage (project_id : String) (title : String) (content : String) (format : Option String)
  | editProjectWikiPage (project_id : String) (slug : String) (title : Option String)
      (content : Option String) (format : Option String)
  | deleteProjectWikiPage (project_id : String) (slug : String)
  | uploadProjectWikiAttachment (project_id : String) (file_path : String) (content : String) (branch : Option String)
  | listGroupWikiPages (group_id : String) (with_content : Option Bool)
  | getGroupWikiPage (group_id : String) (slug : String) (render_html : Option Bool) (version : Option String)
  | createGroupWikiPage (group_id : String) (title : String) (content : String) (format : Option String)
  | editGroupWikiPage (group_id : String) (slug : String) (title : Option String)
      (content : Option String) (format : Option String)
  | deleteGroupWikiPage (group_id : String) (slug : String)
  | uploadGroupWikiAttachment (group_id : String) (file_path : String) (content : String) (branch : Option String)
  | listProjectMembers (project_id : String) (options : Obj)
  | listGroupMembers (group_id : String) (options : Obj)
  | getIssueNotes (project_id : String) (issue_iid : Int) (sort : Option String)
      (order_by : Option String) (page : Option Int) (per_page : Option Int)
  | getIssueDiscussions (project_id : String) (issue_iid : Int) (page : Option Int) (per_page : Option Int)
  | listPipelines (project_id : String) (options : Obj)
  | getPipeline (project_id : String) (pipeline_id : Int)
  | getPipelineJobs (project_id : String) (pipeline_id : Int) (scope : Option String)
  | getJob (project_id : String) (job_id : Int)
  | getJobLog (project_id : String) (job_id : Int)
  | createPipeline (project_id : String) (ref : String) (variables_ : Obj)
  | retryPipeline (project_id : String) (pipeline_id : Int)
  | cancelPipeline (project_id : String) (pipeline_id : Int)
  | retryJob (project_id : String) (job_id : Int)
  | cancelJob (project_id : String) (job_id : Int)
  | listProjects (args : Obj)
  | getProject (project_id : String)
  | validateCIYaml (project_id : String) (content : String) (include_merged_yaml : Option Bool)
  | getProjectRunners (project_id : String) (options : Obj)
  | listSharedRunners (args : Obj)
  | getRunnerDetails (runner_id : Int)
  | enableProjectRunner (project_id : String) (runner_id : Int)
  | disableProjectRunner (project_id : String) (runner_id : Int)
  | registerRunner (registration_token : String) (description : Option String) (tags : Option (List String))
  | validateRunnerTags (project_id : String) (tags : List String)
  | updateRunnerSettings (runner_id : Int) (settings : Obj)
  | getRunnerJobs (runner_id : Int) (options : Obj)
  | runnerHealthCheck (runner_id : Int)

/-- The backend client as an abstract behaviour: each call either returns
an opaque serialized result or fails with an error message. -/
abbrev Backend : Type := BackendCall → Except String String

/-! ## Errors and responses -/

/-- One structural violation of a zod parse: the field path and the reason
(`e.path` and `e.message` of a ZodError issue). -/
structure FieldError where
  path : List String
  msg : String
deriving DecidableEq

/-- The error taxonomy of the handler.  Each constructor remembers what the
source throws; `message` below renders the exact thrown message, with the
ZodError branch of the catch block applied to structural violations. -/
inductive GatewayError where
  | argsRequired
  | readOnly (name : String)
  | unknownTool (name : String)
  | invalidArguments (errs : List FieldError)
  | crossField (msg : String)
  | backend (msg : String)
deriving DecidableEq

/-- One content block of a response envelope; the kind tag is always
"text" in the source. -/
structure ContentBlock where
  kind : String
  text : String
deriving DecidableEq

/-- A response envelope. -/
structure Response where
  content : List ContentBlock
deriving DecidableEq

/-- A single text block, the shape every non-formatter case returns. -/
def textResponse (s : String) : Response :=
  ⟨[⟨"text", s⟩]⟩

/-- Joins rendered strings with a separator, the model of the JavaScript
Array.join used by the ZodError catch block. -/
def joinWith (sep : String) : List String → String
  | [] => ""
  | x :: xs =>
    match xs with
    | [] => x
    | _ :: _ => x ++ sep ++ joinWith sep xs

/-- Renders one structural violation as path-joined-by-dots, colon, reason
(the map body of src/index.ts line 1065). -/
def renderFieldError (e : FieldError) : String :=
  joinWith "." e.path ++ ": " ++ e.msg

/-- The thrown message of each error (src/index.ts lines 476-486, 592-596,
614-631, 651-672, 692-714, 856-861, 885-890, 1060-1069). -/
def GatewayError.message : GatewayError → String
  | .argsRequired => "Arguments are required"
  | .readOnly name => "Tool '" ++ name ++ "' is not available in read-only mode"
  | .unknownTool name => "Unknown tool: " ++ name
  | .invalidArguments errs =>
      "Invalid arguments: " ++ joinWith ", " (errs.map renderFieldError)
  | .crossField m => m
  | .backend m => m

/-! ## External collaborators

The zod schema parses (src/schemas.ts) and the response formatters
(src/formatters.ts) are not among the provided sources.  They enter the
embedding as abstract functions: a parse either yields the operation's
typed record or the list of structural violations a ZodError carries
(the spec, section 4.3: the error aggregates every violating field); a
formatter maps the backend result to a response envelope. -/

/-- The abstract external collaborators of the handler. -/
structure External where
  forkRepositorySchema : RawArgs → Except (List FieldError) ForkArgs
  createBranchSchema : RawArgs → Except (List FieldError) BranchArgs
  searchRepositoriesSchema : RawArgs → Except (List FieldError) SearchArgs
  createRepositorySchema : RawArgs → Except (List FieldError) Obj
  getFileContentsSchema : RawArgs → Except (List FieldError) FileContentsArgs
  createOrUpdateFileSchema : RawArgs → Except (List FieldError) CreateOrUpdateFileArgs
  pushFilesSchema : RawArgs → Except (List FieldError) PushFilesArgs
  createIssueSchema : RawArgs → Except (List FieldError) ProjectOptsArgs
  createMergeRequestSchema : RawArgs → Except (List FieldError) ProjectOptsArgs
  listGroupProjectsSchema : RawArgs → Except (List FieldError) GroupOptsArgs
  getProjectEventsSchema : RawArgs → Except (List FieldError) EventsArgs
  listCommitsSchema : RawArgs → Except (List FieldError) CommitsArgs
  listIssuesSchema : RawArgs → Except (List FieldError) IssuesArgs
  listMergeRequestsSchema : RawArgs → Except (List FieldError) IssuesArgs
  listProjectWikiPagesSchema : RawArgs → Except (List FieldError) WikiListArgs
  getProjectWikiPageSchema : RawArgs → Except (List FieldError) WikiGetArgs
  createProjectWikiPageSchema : RawArgs → Except (List FieldError) WikiCreateArgs
  editProjectWikiPageSchema : RawArgs → Except (List FieldError) WikiEditArgs
  deleteProjectWikiPageSchema : RawArgs → Except (List FieldError) WikiDeleteArgs
  uploadProjectWikiAttachmentSchema : RawArgs → Except (List FieldError) WikiAttachArgs
  listGroupWikiPagesSchema : RawArgs → Except (List FieldError) WikiListArgs
  getGroupWikiPageSchema : RawArgs → Except (List FieldError) WikiGetArgs
  createGroupWikiPageSchema : RawArgs → Except (List FieldError) WikiCreateArgs
  editGroupWikiPageSchema : RawArgs → Except (List FieldError) WikiEditArgs
  deleteGroupWikiPageSchema : RawArgs → Except (List FieldError) WikiDeleteArgs
  uploadGroupWikiAttachmentSchema : RawArgs → Except (List FieldError) WikiAttachArgs
  listProjectMembersSchema : RawArgs → Except (List FieldError) ProjectOptsArgs
  listGroupMembersSchema : RawArgs → Except (List FieldError) GroupOptsArgs
  listIssueNotesSchema : RawArgs → Except (List FieldError) NotesArgs
  listIssueDiscussionsSchema : RawArgs → Except (List FieldError) DiscussionsArgs
  listPipelinesSchema : RawArgs → Except (List FieldError) ProjectOptsArgs
  getPipelineSchema : RawArgs → Except (List FieldError) PipelineIdArgs
  getPipelineJobsSchema : RawArgs → Except (List FieldError) PipelineJobsArgs
  getJobSchema : RawArgs → Except (List FieldError) JobIdArgs
  getJobLogSchema : RawArgs → Except (List FieldError) JobIdArgs
  createPipelineSchema : RawArgs → Except (List FieldError) CreatePipelineArgs
  retryPipelineSchema : RawArgs → Except (List FieldError) PipelineIdArgs
  cancelPipelineSchema : RawArgs → Except (List FieldError) PipelineIdArgs
  retryJobSchema : RawArgs → Except (List FieldError) JobIdArgs
  cancelJobSchema : RawArgs → Except (List FieldError) JobIdArgs
  listProjectsSchema : RawArgs → Except (List FieldError) Obj
  getProjectSchema : RawArgs → Except (List FieldError) ProjectIdArgs
  validateCIYamlSchema : RawArgs → Except (List FieldError) ValidateCIArgs
  getProjectRunnersSchema : RawArgs → Except (List FieldError) ProjectOptsArgs
  listSharedRunnersSchema : RawArgs → Except (List FieldError) Obj
  getRunnerDetailsSchema : RawArgs → Except (List FieldError) RunnerIdArgs
  enableProjectRunnerSchema : RawArgs → Except (List FieldError) ProjectRunnerArgs
  disableProjectRunnerSchema : RawArgs → Except (List FieldError) ProjectRunnerArgs
  registerRunnerSchema : RawArgs → Except (List FieldError) RegisterRunnerArgs
  validateRunnerTagsSchema : RawArgs → Except (List FieldError) ValidateTagsArgs
  updateRunnerSettingsSchema : RawArgs → Except (List FieldError) RunnerSettingsArgs
  getRunnerJobsSchema : RawArgs → Except (List FieldError) RunnerJobsArgs
  runnerHealthCheckSchema : RawArgs → Except (List FieldError) RunnerIdArgs
  formatEvents : String → Response
  formatCommits : String → Response
  formatIssues : String → Response
  formatMergeRequests : String → Response
  formatWikiPages : String → Response
  formatWikiPage : String → Response
  formatWikiAttachment : String → Response
  formatMembers : String → Response
  formatNotes : String → Response
  formatDiscussions : String → Response

/-! ## Cross-field validation (the in-switch checks of src/index.ts)

JavaScript truthiness matters here: a pagination guard of the form
`args.page && args.page < 1` is skipped when `args.page` is absent or 0
(0 is falsy), and a date guard of the form `args.since && ...` is skipped
when `args.since` is absent or the empty string. -/

/-- Truthiness of an optional number. -/
def numTruthy : Option Int → Bool
  | none => false
  | some n => n != 0

/-- The test of `args.per_page && (args.per_page < 1 || args.per_page > 100)`. -/
def perPageGuard : Option Int → Bool
  | none => false
  | some n => n != 0 && (decide (n < 1) || decide (n > 100))

/-- The test of `args.page && args.page < 1`. -/
def pageGuard : Option Int → Bool
  | none => false
  | some n => n != 0 && decide (n < 1)

/-- The test of `args.since && !isValidISODate(args.since)` — a truthy
(present and non-empty) string that fails date validation. -/
def truthyBadDate : Option String → Bool
  | none => false
  | some s => s != "" && !isValidISODate s

/-- The test of `typeof value === 'string' && !isValidISODate(value)` used
by the list_issues / list_merge_requests date loop — any present string
that fails date validation, the empty string included. -/
def presentBadDate : Option String → Bool
  | none => false
  | some s => !isValidISODate s

/-- The two pagination checks, per_page first then page, as every
paginated case of the switch orders them.  Yields the first thrown message. -/
def paginationGuard (page per_page : Option Int) : Option String :=
  if perPageGuard per_page then some "per_page must be between 1 and 100"
  else if pageGuard page then some "page must be greater than 0"
  else none

/-- Cross-field checks of get_project_events (lines 591-597). -/
def eventsGuard (a : EventsArgs) : Option String :=
  paginationGuard a.page a.per_page

/-- Cross-field checks of list_commits (lines 614-633): pagination, then
the truthy since check, then the truthy until check. -/
def commitsGuard (a : CommitsArgs) : Option String :=
  match paginationGuard a.page a.per_page with
  | some m => some m
  | none =>
    if truthyBadDate a.since then
      some "since must be a valid ISO 8601 date (YYYY-MM-DDTHH:MM:SSZ)"
    else if truthyBadDate a.until_ then
      some "until must be a valid ISO 8601 date (YYYY-MM-DDTHH:MM:SSZ)"
    else none

/-- The forEach over the four date fields of list_issues and
list_merge_requests: the first present field failing date validation
throws a message naming it. -/
def dateFieldsGuard : List (String × Option String) → Option String
  | [] => none
  | (n, v) :: rest =>
    if presentBadDate v then
      some (n ++ " must be a valid ISO 8601 date (YYYY-MM-DDTHH:MM:SSZ)")
    else dateFieldsGuard rest

/-- Cross-field checks of list_issues and list_merge_requests
(lines 650-675, 692-717). -/
def issuesGuard (a : IssuesArgs) : Option String :=
  match paginationGuard a.page a.per_page with
  | some m => some m
  | none =>
    dateFieldsGuard
      [("created_after", a.created_after), ("created_before", a.created_before),
       ("updated_after", a.updated_after), ("updated_before", a.updated_before)]

/-- Cross-field checks of list_issue_notes (lines 856-861). -/
def notesGuard (a : NotesArgs) : Option String :=
  paginationGuard a.page a.per_page

/-- Cross-field checks of list_issue_discussions (lines 885-890). -/
def discussionsGuard (a : DiscussionsArgs) : Option String :=
  paginationGuard a.page a.per_page

/-! ## The dispatch switch

The result of handling one invocation: the response or the thrown error,
together with the trace of backend calls issued, in issue order. -/

/-- Result of one invocation: outcome plus the backend-call trace. -/
abbrev DispatchResult : Type := Except GatewayError Response × List BackendCall

/-- Runs the case body on a successful parse; a ZodError becomes the
aggregated invalid-arguments error (the catch block of lines 1063-1069),
with no backend call issued. -/
def runParsed {α : Type} (p : Except (List FieldError) α) (k : α → DispatchResult) : DispatchResult :=
  match p with
  | .error es => (Except.error (GatewayError.invalidArguments es), [])
  | .ok a => k a

/-- Issues one backend call and renders its result (or passes the backend
failure through, the call having been issued). -/
def invoke (B : Backend) (c : BackendCall) (fmt : String → Response) : DispatchResult :=
  match B c with
  | .error m => (Except.error (GatewayError.backend m), [c])
  | .ok v => (Except.ok (fmt v), [c])

/-- A thrown cross-field validation error: no backend call issued. -/
def crossFail (msg : String) : DispatchResult :=
  (Except.error (GatewayError.crossField msg), [])

/-- A case that parses, then issues exactly one backend call.
`JSON.stringify(result, null, 2)` of an opaque serialized result is the
result itself, so the default formatter is `textResponse`. -/
def simpleCase {α : Type} (B : Backend) (p : Except (List FieldError) α)
    (c : α → BackendCall) (fmt : α → String → Response) : DispatchResult :=
  runParsed p fun a => invoke B (c a) (fmt a)

/-- A case that parses, runs its cross-field checks, then issues exactly
one backend call. -/
def guardedCase {α : Type} (B : Backend) (p : Except (List FieldError) α)
    (g : α → Option String) (c : α → BackendCall) (fmt : α → String → Response) : DispatchResult :=
  runParsed p fun a =>
    match g a with
    | some msg => crossFail msg
    | none => invoke B (c a) (fmt a)

/-- The default JSON formatter of most cases. -/
def jsonFmt {α : Type} : α → String → Response := fun _ v => textResponse v

/-- The create_branch case (lines 495-508): when `args.ref` is falsy
(absent or empty), the default branch ref is fetched first — a backend
call of its own — then the branch is created. -/
def createBranchFetchingDefault (B : Backend) (a : BranchArgs) : DispatchResult :=
  match B (BackendCall.getDefaultBranchRef a.project_id) with
  | .error m =>
    (Except.error (GatewayError.backend m), [BackendCall.getDefaultBranchRef a.project_id])
  | .ok ref =>
    match B (BackendCall.createBranch a.project_id a.branch ref) with
    | .error m =>
      (Except.error (GatewayError.backend m),
       [BackendCall.getDefaultBranchRef a.project_id, BackendCall.createBranch a.project_id a.branch ref])
    | .ok v =>
      (Except.ok (textResponse v),
       [BackendCall.getDefaultBranchRef a.project_id, BackendCall.createBranch a.project_id a.branch ref])

/-- The create_branch case body after a successful parse. -/
def createBranchCase (B : Backend) (p : Except (List FieldError) BranchArgs) : DispatchResult :=
  runParsed p fun a =>
    match a.ref with
    | some r =>
      if r == "" then createBranchFetchingDefault B a
      else invoke B (BackendCall.createBranch a.project_id a.branch r) (fun v => textResponse v)
    | none => createBranchFetchingDefault B a

/-- The backend call the push_files loop issues for one file of the list
(createOrUpdateFile with no previous path, lines 548-554). -/
def mkPush (project_id commit_message branch : String) (f : FileOp) : BackendCall :=
  BackendCall.createOrUpdateFile project_id f.path f.content commit_message branch none

/-- The push_files loop (lines 544-560): one createOrUpdateFile call per
file, sequentially in list order, rethrowing — and so aborting — at the
first failure.  Completed calls stay in the trace; they are not rolled
back. -/
def pushFilesLoop (B : Backend) (project_id commit_message branch : String) :
    List FileOp → Except String (List String) × List BackendCall
  | [] => (Except.ok [], [])
  | f :: fs =>
    let c := mkPush project_id commit_message branch f
    match B c with
    | .error e => (Except.error e, [c])
    | .ok r =>
      let rest := pushFilesLoop B project_id commit_message branch fs
      (rest.1.map (fun l => r :: l), c :: rest.2)

/-- Serialization of the collected push_files results. -/
def jsonArray (l : List String) : String :=
  "[" ++ joinWith ", " l ++ "]"

/-- The push_files case body. -/
def pushFilesCase (B : Backend) (p : Except (List FieldError) PushFilesArgs) : DispatchResult :=
  runParsed p fun a =>
    let r := pushFilesLoop B a.project_id a.commit_message a.branch a.files
    match r.1 with
    | .error e => (Except.error (GatewayError.backend e), r.2)
    | .ok results => (Except.ok (textResponse (jsonArray results)), r.2)

/-- The dispatch switch of the call-tool handler (lines 488-1062), one arm
per case in source order; the trailing arm is the default case throwing
the unknown-tool error.  The JavaScript switch compares the name against
each case label, which the nested conditionals mirror. -/
def dispatch (E : External) (B : Backend) (name : String) (args : RawArgs) : DispatchResult :=
  if name = "fork_repository" then
    simpleCase B (E.forkRepositorySchema args)
      (fun a => BackendCall.forkProject a.project_id a.namespace_) jsonFmt
  else if name = "create_branch" then
    createBranchCase B (E.createBranchSchema args)
  else if name = "search_repositories" then
    simpleCase B (E.searchRepositoriesSchema args)
      (fun a => BackendCall.searchProjects a.search a.page a.per_page) jsonFmt
  else if name = "create_repository" then
    simpleCase B (E.createRepositorySchema args)
      (fun o => BackendCall.createRepository o) jsonFmt
  else if name = "get_file_contents" then
    simpleCase B (E.getFileContentsSchema args)
      (fun a => BackendCall.getFileContents a.project_id a.file_path a.ref) jsonFmt
  else if name = "create_or_update_file" then
    simpleCase B (E.createOrUpdateFileSchema args)
      (fun a => BackendCall.createOrUpdateFile a.project_id a.file_path a.content
        a.commit_message a.branch a.previous_path) jsonFmt
  else if name = "push_files" then
    pushFilesCase B (E.pushFilesSchema args)
  else if name = "create_issue" then
    simpleCase B (E.createIssueSchema args)
      (fun a => BackendCall.createIssue a.project_id a.options) jsonFmt
  else if name = "create_merge_request" then
    simpleCase B (E.createMergeRequestSchema args)
      (fun a => BackendCall.createMergeRequest a.project_id a.options) jsonFmt
  else if name = "list_group_projects" then
    simpleCase B (E.listGroupProjectsSchema args)
      (fun a => BackendCall.listGroupProjects a.group_id a.options) jsonFmt
  else if name = "get_project_events" then
    guardedCase B (E.getProjectEventsSchema args) eventsGuard
      (fun a => BackendCall.getProjectEvents a.project_id a.page a.per_page a.options)
      (fun _ => E.formatEvents)
  else if name = "list_commits" then
    guardedCase B (E.listCommitsSchema args) commitsGuard
      (fun a => BackendCall.listCommits a.project_id a.page a.per_page a.since a.until_ a.options)
      (fun _ => E.formatCommits)
  else if name = "list_issues" then
    guardedCase B (E.listIssuesSchema args) issuesGuard
      (fun a => BackendCall.listIssues a.project_id a.page a.per_page
        a.created_after a.created_before a.updated_after a.updated_before a.options)
      (fun _ => E.formatIssues)
  else if name = "list_merge_requests" then
    guardedCase B (E.listMergeRequestsSchema args) issuesGuard
      (fun a => BackendCall.listMergeRequests a.project_id a.page a.per_page
        a.created_after a.created_before a.updated_after a.updated_before a.options)
      (fun _ => E.formatMergeRequests)
  else if name = "list_project_wiki_pages" then
    simpleCase B (E.listProjectWikiPagesSchema args)
      (fun a => BackendCall.listProjectWikiPages a.id a.with_content)
      (fun _ => E.formatWikiPages)
  else if name = "get_project_wiki_page" then
    simpleCase B (E.getProjectWikiPageSchema args)
      (fun a => BackendCall.getProjectWikiPage a.id a.slug a.render_html a.version)
      (fun _ => E.formatWikiPage)
  else if name = "create_project_wiki_page" then
    simpleCase B (E.createProjectWikiPageSchema args)
      (fun a => BackendCall.createProjectWikiPage a.id a.title a.content a.format)
      (fun _ => E.formatWikiPage)
  else if name = "edit_project_wiki_page" then
    simpleCase B (E.editProjectWikiPageSchema args)
      (fun a => BackendCall.editProjectWikiPage a.id a.slug a.title a.content a.format)
      (fun _ => E.formatWikiPage)
  else if name = "delete_project_wiki_page" then
    simpleCase B (E.deleteProjectWikiPageSchema args)
      (fun a => BackendCall.deleteProjectWikiPage a.id a.slug)
      (fun a _ => textResponse ("Wiki page '" ++ a.slug ++ "' has been deleted."))
  else if name = "upload_project_wiki_attachment" then
    simpleCase B (E.uploadProjectWikiAttachmentSchema args)
      (fun a => BackendCall.uploadProjectWikiAttachment a.id a.file_path a.content a.branch)
      (fun _ => E.formatWikiAttachment)
  else if name = "list_group_wiki_pages" then
    simpleCase B (E.listGroupWikiPagesSchema args)
      (fun a => BackendCall.listGroupWikiPages a.id a.with_content)
      (fun _ => E.formatWikiPages)
  else if name = "get_group_wiki_page" then
    simpleCase B (E.getGroupWikiPageSchema args)
      (fun a => BackendCall.getGroupWikiPage a.id a.slug a.render_html a.version)
      (fun _ => E.formatWikiPage)
  else if name = "create_group_wiki_page" then
    simpleCase B (E.createGroupWikiPageSchema args)
      (fun a => BackendCall.createGroupWikiPage a.id a.title a.content a.format)
      (fun _ => E.formatWikiPage)
  else if name = "edit_group_wiki_page" then
    simpleCase B (E.editGroupWikiPageSchema args)
      (fun a => BackendCall.editGroupWikiPage a.id a.slug a.title a.content a.format)
      (fun _ => E.formatWikiPage)
  else if name = "delete_group_wiki_page" then
    simpleCase B (E.deleteGroupWikiPageSchema args)
      (fun a => BackendCall.deleteGroupWikiPage a.id a.slug)
      (fun a _ => textResponse ("Wiki page '" ++ a.slug ++ "' has been deleted."))
  else if name = "upload_group_wiki_attachment" then
    simpleCase B (E.uploadGroupWikiAttachmentSchema args)
      (fun a => BackendCall.uploadGroupWikiAttachment a.id a.file_path a.content a.branch)
      (fun _ => E.formatWikiAttachment)
  else if name = "list_project_members" then
    simpleCase B (E.listProjectMembersSchema args)
      (fun a => BackendCall.listProjectMembers a.project_id a.options)
      (fun _ => E.formatMembers)
  else if name = "list_group_members" then
    simpleCase B (E.listGroupMembersSchema args)
      (fun a => BackendCall.listGroupMembers a.group_id a.options)
      (fun _ => E.formatMembers)
  else if name = "list_issue_notes" then
    guardedCase B (E.listIssueNotesSchema args) notesGuard
      (fun a => BackendCall.getIssueNotes a.project_id a.issue_iid a.sort a.order_by a.page a.per_page)
      (fun _ => E.formatNotes)
  else if name = "list_issue_discussions" then
    guardedCase B (E.listIssueDiscussionsSchema args) discussionsGuard
      (fun a => BackendCall.getIssueDiscussions a.project_id a.issue_iid a.page a.per_page)
      (fun _ => E.formatDiscussions)
  else if name = "list_pipelines" then
    simpleCase B (E.listPipelinesSchema args)
      (fun a => BackendCall.listPipelines a.project_id a.options) jsonFmt
  else if name = "get_pipeline" then
    simpleCase B (E.getPipelineSchema args)
      (fun a => BackendCall.getPipeline a.project_id a.pipeline_id) jsonFmt
  else if name = "get_pipeline_jobs" then
    simpleCase B (E.getPipelineJobsSchema args)
      (fun a => BackendCall.getPipelineJobs a.project_id a.pipeline_id a.scope) jsonFmt
  else if name = "get_job" then
    simpleCase B (E.getJobSchema args)
      (fun a => BackendCall.getJob a.project_id a.job_id) jsonFmt
  else if name = "get_job_log" then
    simpleCase B (E.getJobLogSchema args)
      (fun a => BackendCall.getJobLog a.project_id a.job_id)
      (fun _ v => textResponse v)
  else if name = "create_pipeline" then
    simpleCase B (E.createPipelineSchema args)
      (fun a => BackendCall.createPipeline a.project_id a.ref (a.variables_.getD []))
      jsonFmt
  else if name = "retry_pipeline" then
    simpleCase B (E.retryPipelineSchema args)
      (fun a => BackendCall.retryPipeline a.project_id a.pipeline_id) jsonFmt
  else if name = "cancel_pipeline" then
    simpleCase B (E.cancelPipelineSchema args)
      (fun a => BackendCall.cancelPipeline a.project_id a.pipeline_id) jsonFmt
  else if name = "retry_job" then
    simpleCase B (E.retryJobSchema args)
      (fun a => BackendCall.retryJob a.project_id a.job_id) jsonFmt
  else if name = "cancel_job" then
    simpleCase B (E.cancelJobSchema args)
      (fun a => BackendCall.cancelJob a.project_id a.job_id) jsonFmt
  else if name = "list_projects" then
    simpleCase B (E.listProjectsSchema args)
      (fun o => BackendCall.listProjects o) jsonFmt
  else if name = "get_project" then
    simpleCase B (E.getProjectSchema args)
      (fun a => BackendCall.getProject a.project_id) jsonFmt
  else if name = "validate_ci_yaml" then
    simpleCase B (E.validateCIYamlSchema args)
      (fun a => BackendCall.validateCIYaml a.project_id a.content a.include_merged_yaml) jsonFmt
  else if name = "get_project_runners" then
    simpleCase B (E.getProjectRunnersSchema args)
      (fun a => BackendCall.getProjectRunners a.project_id a.options) jsonFmt
  else if name = "list_shared_runners" then
    simpleCase B (E.listSharedRunnersSchema args)
      (fun o => BackendCall.listSharedRunners o) jsonFmt
  else if name = "get_runner_details" then
    simpleCase B (E.getRunnerDetailsSchema args)
      (fun a => BackendCall.getRunnerDetails a.runner_id) jsonFmt
  else if name = "enable_project_runner" then
    simpleCase B (E.enableProjectRunnerSchema args)
      (fun a => BackendCall.enableProjectRunner a.project_id a.runner_id) jsonFmt
  else if name = "disable_project_runner" then
    simpleCase B (E.disableProjectRunnerSchema args)
      (fun a => BackendCall.disableProjectRunner a.project_id a.runner_id)
      (fun a _ => textResponse
        ("Runner " ++ toString a.runner_id ++ " has been disabled for project " ++ a.project_id))
  else if name = "register_runner" then
    simpleCase B (E.registerRunnerSchema args)
      (fun a => BackendCall.registerRunner a.registration_token a.description a.tags) jsonFmt
  else if name = "validate_runner_tags" then
    simpleCase B (E.validateRunnerTagsSchema args)
      (fun a => BackendCall.validateRunnerTags a.project_id a.tags) jsonFmt
  else if name = "update_runner_settings" then
    simpleCase B (E.updateRunnerSettingsSchema args)
      (fun a => BackendCall.updateRunnerSettings a.runner_id a.settings) jsonFmt
  else if name = "get_runner_jobs" then
    simpleCase B (E.getRunnerJobsSchema args)
      (fun a => BackendCall.getRunnerJobs a.runner_id a.options) jsonFmt
  else if name = "runner_health_check" then
    simpleCase B (E.runnerHealthCheckSchema args)
      (fun a => BackendCall.runnerHealthCheck a.runner_id) jsonFmt
  else
    (Except.error (GatewayError.unknownTool name), [])

/-- Eligibility under read-only mode: the source checks
`!tool || !tool.readOnly` after looking the descriptor up, so a missing
descriptor counts as not eligible. -/
def toolAllowedReadOnly (name : String) : Bool :=
  match lookupTool name with
  | some t => t.readOnly
  | none => false

/-- The call-tool request handler (lines 474-1070): the arguments-presence
check first, then the read-only gate, then the dispatch switch. -/
def handleCall (E : External) (B : Backend) (readOnlyMode : Bool)
    (name : String) (arguments : Option RawArgs) : DispatchResult :=
  match arguments with
  | none => (Except.error GatewayError.argsRequired, [])
  | some args =>
    if readOnlyMode && !toolAllowedReadOnly name then
      (Except.error (GatewayError.readOnly name), [])
    else
      dispatch E B name args

/-- Validation-stage errors of the taxonomy: the missing-arguments error,
structural (ZodError) violations and cross-field violations.  Backend
errors, the read-only refusal and the unknown-tool error are not
validation errors. -/
def isValidationErr : Except GatewayError Response → Bool
  | .error GatewayError.argsRequired => true
  | .error (GatewayError.invalidArguments _) => true
  | .error (GatewayError.crossField _) => true
  | _ => false

/-! ## Concrete instantiations used by the closed theorems -/

/-- External collaborators whose every parse rejects (with an empty
violation list) and whose formatters are the plain text block. -/
def mockExternal : External where
  forkRepositorySchema := fun _ => Except.error []
  createBranchSchema := fun _ => Except.error []
  searchRepositoriesSchema := fun _ => Except.error []
  createRepositorySchema := fun _ => Except.error []
  getFileContentsSchema := fun _ => Except.error []
  createOrUpdateFileSchema := fun _ => Except.error []
  pushFilesSchema := fun _ => Except.error []
  createIssueSchema := fun _ => Except.error []
  createMergeRequestSchema := fun _ => Except.error []
  listGroupProjectsSchema := fun _ => Except.error []
  getProjectEventsSchema := fun _ => Except.error []
  listCommitsSchema := fun _ => Except.error []
  listIssuesSchema := fun _ => Except.error []
  listMergeRequestsSchema := fun _ => Except.error []
  listProjectWikiPagesSchema := fun _ => Except.error []
  getProjectWikiPageSchema := fun _ => Except.error []
  createProjectWikiPageSchema := fun _ => Except.error []
  editProjectWikiPageSchema := fun _ => Except.error []
  deleteProjectWikiPageSchema := fun _ => Except.error []
  uploadProjectWikiAttachmentSchema := fun _ => Except.error []
  listGroupWikiPagesSchema := fun _ => Except.error []
  getGroupWikiPageSchema := fun _ => Except.error []
  createGroupWikiPageSchema := fun _ => Except.error []
  editGroupWikiPageSchema := fun _ => Except.error []
  deleteGroupWikiPageSchema := fun _ => Except.error []
  uploadGroupWikiAttachmentSchema := fun _ => Except.error []
  listProjectMembersSchema := fun _ => Except.error []
  listGroupMembersSchema := fun _ => Except.error []
  listIssueNotesSchema := fun _ => Except.error []
  listIssueDiscussionsSchema := fun _ => Except.error []
  listPipelinesSchema := fun _ => Except.error []
  getPipelineSchema := fun _ => Except.error []
  getPipelineJobsSchema := fun _ => Except.error []
  getJobSchema := fun _ => Except.error []
  getJobLogSchema := fun _ => Except.error []
  createPipelineSchema := fun _ => Except.error []
  retryPipelineSchema := fun _ => Except.error []
  cancelPipelineSchema := fun _ => Except.error []
  retryJobSchema := fun _ => Except.error []
  cancelJobSchema := fun _ => Except.error []
  listProjectsSchema := fun _ => Except.error []
  getProjectSchema := fun _ => Except.error []
  validateCIYamlSchema := fun _ => Except.error []
  getProjectRunnersSchema := fun _ => Except.error []
  listSharedRunnersSchema := fun _ => Except.error []
  getRunnerDetailsSchema := fun _ => Except.error []
  enableProjectRunnerSchema := fun _ => Except.error []
  disableProjectRunnerSchema := fun _ => Except.error []
  registerRunnerSchema := fun _ => Except.error []
  validateRunnerTagsSchema := fun _ => Except.error []
  updateRunnerSettingsSchema := fun _ => Except.error []
  getRunnerJobsSchema := fun _ => Except.error []
  runnerHealthCheckSchema := fun _ => Except.error []
  formatEvents := textResponse
  formatCommits := textResponse
  formatIssues := textResponse
  formatMergeRequests := textResponse
  formatWikiPages := textResponse
  formatWikiPage := textResponse
  formatWikiAttachment := textResponse
  formatMembers := textResponse
  formatNotes := textResponse
  formatDiscussions := textResponse

/-- A backend on which every call fails. -/
def noBackend : Backend := fun _ => Except.error "backend unreachable"

/-- A backend on which every call succeeds with an empty list payload. -/
def okBackend : Backend := fun _ => Except.ok "[]"

/-- The list_issues record of the spec scenario with page 0. -/
def issuesArgsPage0 : IssuesArgs :=
  ⟨"123", some 0, none, none, none, none, none, []⟩

/-- Collaborators whose list_issues parse succeeds with page 0. -/
def extIssuesPage0 : External :=
  { mockExternal with listIssuesSchema := fun _ => Except.ok issuesArgsPage0 }

/-- Collaborators whose list_issues parse succeeds with per_page 0. -/
def extIssuesPerPage0 : External :=
  { mockExternal with listIssuesSchema :=
      fun _ => Except.ok (IssuesArgs.mk "123" none (some 0) none none none none []) }

/-- Collaborators whose list_issues parse succeeds with per_page 101. -/
def extIssuesPerPage101 : External :=
  { mockExternal with listIssuesSchema :=
      fun _ => Except.ok (IssuesArgs.mk "123" none (some 101) none none none none []) }

/-- Collaborators whose list_commits parse succeeds with the empty string
as the since field. -/
def extCommitsEmptySince : External :=
  { mockExternal with listCommitsSchema :=
      fun _ => Except.ok (CommitsArgs.mk "123" none none (some "") none []) }

/-- Collaborators whose list_commits parse succeeds with a malformed
since field, the spec scenario. -/
def extCommitsBadSince : External :=
  { mockExternal with listCommitsSchema :=
      fun _ => Except.ok (CommitsArgs.mk "123" none none (some "not-a-date") none []) }

/-- The three-file push of the spec scenario. -/
def threeFiles : List FileOp :=
  [⟨"a.txt", "A"⟩, ⟨"b.txt", "B"⟩, ⟨"c.txt", "C"⟩]

/-- Collaborators whose push_files parse succeeds with the three files. -/
def extPushThree : External :=
  { mockExternal with pushFilesSchema :=
      fun _ => Except.ok (PushFilesArgs.mk "123" "msg" "main" threeFiles) }

/-- A backend on which writing the file b.txt fails and every other call
succeeds. -/
def pushBackend : Backend := fun c =>
  match c with
  | BackendCall.createOrUpdateFile _ "b.txt" _ _ _ _ => Except.error "write failed"
  | _ => Except.ok "ok"

/-- The needle occurs inside the haystack (what "the message contains X"
means for the claims). -/
def strContains (hay needle : String) : Prop :=
  needle.data <:+: hay.data

instance (hay needle : String) : Decidable (strContains hay needle) :=
  List.decidableInfix needle.data hay.data

/-- No call issued whenever the outcome is a validation error. -/
def NCV (r : DispatchResult) : Prop :=
  isValidationErr r.1 = true → r.2 = []

/-! ## String containment -/

/-- Appending distributes over the character lists of strings. -/
theorem data_append (a b : String) : (a ++ b).data = a.data ++ b.data := rfl

/-- An infix of a list is an infix of any left-extension of it. -/
theorem infix_append_right {α : Type} (s : List α) {l t : List α} (h : l <:+: t) :
    l <:+: s ++ t := by
  obtain ⟨u, v, huv⟩ := h
  exact ⟨s ++ u, v, by rw [← huv]; simp [List.append_assoc]⟩

/-- An infix of a list is an infix of any right-extension of it. -/
theorem infix_append_left {α : Type} (s : List α) {l t : List α} (h : l <:+: t) :
    l <:+: t ++ s := by
  obtain ⟨u, v, huv⟩ := h
  exact ⟨u, v ++ s, by rw [← huv]; simp [List.append_assoc]⟩

/-- A prefix is an infix. -/
theorem infix_of_prefix {α : Type} {l t : List α} (h : l <+: t) : l <:+: t := by
  obtain ⟨r, hr⟩ := h
  exact ⟨[], r, by simpa using hr⟩

/-- Every member of a joined list occurs inside the join. -/
theorem mem_infix_joinWith (sep : String) (l : List String) (s : String) (h : s ∈ l) :
    s.data <:+: (joinWith sep l).data := by
  induction l with
  | nil => cases h
  | cons x xs ih =>
    cases xs with
    | nil =>
      have hx : s = x := by simpa using h
      subst hx
      exact List.infix_refl _
    | cons y ys =>
      rcases List.mem_cons.mp h with hx | hmem
      · subst hx
        show s.data <:+: (s ++ sep ++ joinWith sep (y :: ys)).data
        rw [data_append, data_append, List.append_assoc]
        exact infix_of_prefix (List.prefix_append _ _)
      · have hrec := ih hmem
        show s.data <:+: (x ++ sep ++ joinWith sep (y :: ys)).data
        rw [data_append]
        exact infix_append_right _ hrec

/-- The read-only refusal message contains its fixed tail for every name. -/
theorem contains_readonly_msg (name : String) :
    strContains (GatewayError.readOnly name).message "not available in read-only mode" := by
  show ("not available in read-only mode").data
    <:+: ("Tool '" ++ name ++ "' is not available in read-only mode").data
  rw [data_append]
  apply infix_append_right
  decide

/-! ## No backend call on validation failure -/

/-- A thrown error with an empty trace trivially satisfies NCV. -/
theorem ncv_err (e : GatewayError) : NCV (Except.error e, []) :=
  fun _ => rfl

/-- NCV passes through the zod-parse wrapper. -/
theorem ncv_runParsed {α : Type} (p : Except (List FieldError) α) (k : α → DispatchResult)
    (hk : ∀ a, NCV (k a)) : NCV (runParsed p k) := by
  unfold runParsed
  cases p with
  | error es => exact fun _ => rfl
  | ok a => exact hk a

/-- An issued backend call never yields a validation error. -/
theorem ncv_invoke (B : Backend) (c : BackendCall) (fmt : String → Response) :
    NCV (invoke B c fmt) := by
  unfold invoke NCV
  cases B c with
  | error m => intro h; simp [isValidationErr] at h
  | ok v => intro h; simp [isValidationErr] at h

/-- NCV for an if-then-else over both branches. -/
theorem ncv_ite (c : Prop) [Decidable c] (x y : DispatchResult)
    (hx : NCV x) (hy : NCV y) : NCV (if c then x else y) := by
  by_cases h : c
  · simpa [h] using hx
  · simpa [h] using hy

/-- NCV of a parse-then-single-call case. -/
theorem ncv_simple {α : Type} (B : Backend) (p : Except (List FieldError) α)
    (c : α → BackendCall) (fmt : α → String → Response) : NCV (simpleCase B p c fmt) := by
  unfold simpleCase
  exact ncv_runParsed _ _ (fun a => ncv_invoke B (c a) (fmt a))

/-- NCV of a guarded case: a violated guard issues no call. -/
theorem ncv_guarded {α : Type} (B : Backend) (p : Except (List FieldError) α)
    (g : α → Option String) (c : α → BackendCall) (fmt : α → String → Response) :
    NCV (guardedCase B p g c fmt) := by
  unfold guardedCase
  apply ncv_runParsed
  intro a
  cases g a with
  | some m => exact fun _ => rfl
  | none => exact ncv_invoke B (c a) (fmt a)

/-- NCV of the default-branch fetch of create_branch. -/
theorem ncv_createBranchFetching (B : Backend) (a : BranchArgs) :
    NCV (createBranchFetchingDefault B a) := by
  unfold createBranchFetchingDefault NCV
  cases B (BackendCall.getDefaultBranchRef a.project_id) with
  | error m => intro h; simp [isValidationErr] at h
  | ok ref =>
    dsimp only
    cases B (BackendCall.createBranch a.project_id a.branch ref) with
    | error m => intro h; simp [isValidationErr] at h
    | ok v => intro h; simp [isValidationErr] at h

/-- NCV of the create_branch case. -/
theorem ncv_createBranchCase (B : Backend) (p : Except (List FieldError) BranchArgs) :
    NCV (createBranchCase B p) := by
  unfold createBranchCase
  apply ncv_runParsed
  intro a
  cases a.ref with
  | none => exact ncv_createBranchFetching B a
  | some r =>
    dsimp only
    split
    · exact ncv_createBranchFetching B a
    · exact ncv_invoke _ _ _

/-- NCV of the push_files case: the loop only fails with backend errors. -/
theorem ncv_pushFilesCase (B : Backend) (p : Except (List FieldError) PushFilesArgs) :
    NCV (pushFilesCase B p) := by
  unfold pushFilesCase
  apply ncv_runParsed
  intro a
  unfold NCV
  dsimp only
  cases hloop : (pushFilesLoop B a.project_id a.commit_message a.branch a.files).1 with
  | error e => intro h; simp [isValidationErr] at h
  | ok results => intro h; simp [isValidationErr] at h

/-- Every arm of the dispatch switch satisfies NCV. -/
theorem dispatch_ncv (E : External) (B : Backend) (name : String) (args : RawArgs) :
    NCV (dispatch E B name args) := by
  unfold dispatch
  repeat' apply ncv_ite
  all_goals
    first
    | apply ncv_simple
    | apply ncv_guarded
    | apply ncv_createBranchCase
    | apply ncv_pushFilesCase
    | apply ncv_err

/-- The whole handler satisfies NCV. -/
theorem handleCall_ncv (E : External) (B : Backend) (mode : Bool)
    (name : String) (arguments : Option RawArgs) :
    NCV (handleCall E B mode name arguments) := by
  unfold handleCall
  cases arguments with
  | none => exact fun _ => rfl
  | some args =>
    dsimp only
    split
    · exact fun _ => rfl
    · exact dispatch_ncv E B name args

/-- A backend call is in the trace whether it succeeds or fails. -/
theorem invoke_trace (B : Backend) (c : BackendCall) (fmt : String → Response) :
    (invoke B c fmt).2 = [c] := by
  unfold invoke
  cases B c <;> rfl

/-! ## Claim C1 -/

/-- C1 (amended): for every catalog operation with readOnly false, invoking
it under the restrictive mode with a present arguments object — valid or
invalid — fails with the read-only refusal, whose message contains
"not available in read-only mode", and no backend call is issued.  (With
the arguments object absent the call still fails with no backend call, but
earlier, with the message "Arguments are required" — see the
counterexample.) -/
theorem claim1_read_only_blocks_mutating_tools (E : External) (B : Backend)
    (name : String) (t : Tool) (args : RawArgs)
    (hl : lookupTool name = some t) (hro : t.readOnly = false) :
    handleCall E B true name (some args) = (Except.error (GatewayError.readOnly name), [])
    ∧ strContains (GatewayError.readOnly name).message "not available in read-only mode" := by
  have hall : toolAllowedReadOnly name = false := by
    unfold toolAllowedReadOnly
    rw [hl]
    exact hro
  refine ⟨?_, contains_readonly_msg name⟩
  simp [handleCall, hall]

/-- Witness for C1: create_issue under restrictive mode. -/
theorem claim1_witness :
    handleCall mockExternal noBackend true "create_issue" (some [])
      = (Except.error (GatewayError.readOnly "create_issue"), [])
    ∧ strContains (GatewayError.readOnly "create_issue").message
        "not available in read-only mode" :=
  claim1_read_only_blocks_mutating_tools mockExternal noBackend "create_issue"
    ⟨"create_issue", "Create a new issue in a GitLab project", "CreateIssueSchema", false⟩
    [] (by decide) rfl

/-- Counterexample for C1 as stated: with the arguments object absent, the
restrictive-mode invocation of create_issue fails with the message
"Arguments are required", which does not contain
"not available in read-only mode". -/
theorem claim1_counterexample :
    handleCall mockExternal noBackend true "create_issue" none
      = (Except.error GatewayError.argsRequired, [])
    ∧ GatewayError.argsRequired.message = "Arguments are required"
    ∧ ¬ strContains GatewayError.argsRequired.message "not available in read-only mode" :=
  ⟨rfl, rfl, by decide⟩

/-! ## Claim C2 (code bug evidence) -/

/-- C2: evaluation at the spec scenario, list_issues with project_id "123"
and page 0.  Because 0 is falsy, the guard `args.page && args.page < 1`
does not fire: the invocation is NOT rejected — the backend call is issued
with page 0 and the call succeeds — although the thrown message of the
guard itself says "page must be greater than 0".  The page 1 acceptance
half of the claim does hold. -/
theorem claim2_page_zero_reaches_backend :
    handleCall extIssuesPage0 okBackend false "list_issues" (some [])
      = (Except.ok (textResponse "[]"),
         [BackendCall.listIssues "123" (some 0) none none none none none []])
    ∧ pageGuard (some 0) = false
    ∧ pageGuard (some 1) = false
    ∧ pageGuard (some (-1)) = true :=
  ⟨rfl, rfl, rfl, rfl⟩

/-! ## Claim C3 (code bug evidence) -/

/-- C3: per_page 0 is falsy, so the guard
`args.per_page && (args.per_page < 1 || args.per_page > 100)` does not
fire and the backend call is issued with per_page 0; per_page 101 is
rejected with "per_page must be between 1 and 100" and no backend call, and
per_page 1 and 100 are accepted, as the claim states for them. -/
theorem claim3_per_page_zero_reaches_backend :
    handleCall extIssuesPerPage0 okBackend false "list_issues" (some [])
      = (Except.ok (textResponse "[]"),
         [BackendCall.listIssues "123" none (some 0) none none none none []])
    ∧ handleCall extIssuesPerPage101 okBackend false "list_issues" (some [])
      = (Except.error (GatewayError.crossField "per_page must be between 1 and 100"), [])
    ∧ perPageGuard (some 1) = false
    ∧ perPageGuard (some 100) = false :=
  ⟨rfl, rfl, rfl, rfl⟩

/-! ## Claim C4 -/

/-- C4 (amended): under the restrictive mode the descriptor lookup result
does not change the message — an invocation of a name that is not in the
catalog and an invocation of a catalog name with readOnly false both fail
with the same refusal, whose message is
"Tool 'X' is not available in read-only mode"; the distinct
"Unknown tool: X" message is not produced under the restrictive mode. -/
theorem claim4_restrictive_mode_uniform_message (E : External) (B : Backend)
    (name : String) (args : RawArgs)
    (h : lookupTool name = none ∨ ∃ t, lookupTool name = some t ∧ t.readOnly = false) :
    handleCall E B true name (some args) = (Except.error (GatewayError.readOnly name), [])
    ∧ strContains (GatewayError.readOnly name).message "not available in read-only mode" := by
  have hall : toolAllowedReadOnly name = false := by
    unfold toolAllowedReadOnly
    rcases h with h | ⟨t, ht, hro⟩
    · rw [h]
    · rw [ht]; exact hro
  refine ⟨?_, contains_readonly_msg name⟩
  simp [handleCall, hall]

/-- Witness for C4: a name outside the catalog under restrictive mode. -/
theorem claim4_witness :
    handleCall mockExternal noBackend true "no_such_tool" (some [])
      = (Except.error (GatewayError.readOnly "no_such_tool"), [])
    ∧ strContains (GatewayError.readOnly "no_such_tool").message
        "not available in read-only mode" :=
  claim4_restrictive_mode_uniform_message mockExternal noBackend "no_such_tool" []
    (Or.inl (by decide))

/-- Counterexample for C4 as stated: under restrictive mode, the unknown
name "no_such_tool" does NOT fail with "Unknown tool: no_such_tool" — it
fails with "Tool 'no_such_tool' is not available in read-only mode", the
same message as an ineligible catalog name, and that message does not
contain "Unknown tool". -/
theorem claim4_counterexample :
    (handleCall mockExternal noBackend true "no_such_tool" (some [])).1
      = Except.error (GatewayError.readOnly "no_such_tool")
    ∧ lookupTool "no_such_tool" = none
    ∧ (GatewayError.readOnly "no_such_tool").message
      = "Tool 'no_such_tool' is not available in read-only mode"
    ∧ ¬ strContains (GatewayError.readOnly "no_such_tool").message "Unknown tool" :=
  ⟨rfl, by decide, rfl, by decide⟩

/-! ## Claim C5 -/

/-- C5: for every invocation of every operation — any mode, any name, any
arguments, any parse outcomes of the schemas, any backend — whenever the
outcome is a validation failure (arguments absent, structural ZodError, or
cross-field violation), the backend-call trace is empty: validation
completes before the first backend call is issued, and a failed validation
issues none. -/
theorem claim5_validation_failure_issues_no_backend_call (E : External) (B : Backend)
    (mode : Bool) (name : String) (arguments : Option RawArgs)
    (h : isValidationErr (handleCall E B mode name arguments).1 = true) :
    (handleCall E B mode name arguments).2 = [] :=
  handleCall_ncv E B mode name arguments h

/-- Witness for C5: a failing list_issues parse issues no backend call. -/
theorem claim5_witness :
    (handleCall mockExternal noBackend false "list_issues" (some [])).2 = [] :=
  claim5_validation_failure_issues_no_backend_call mockExternal noBackend false
    "list_issues" (some []) rfl

/-! ## Claim C7 -/

/-- C7: the restrictive-mode listing is exactly the readOnly subset of the
catalog (stripped to descriptors), the non-restrictive listing is the full
catalog, and both preserve catalog insertion order (the restrictive
listing is a sublist of the full one). -/
theorem claim7_listing_filters_read_only :
    (∀ d, d ∈ listTools true ↔ ∃ t, t ∈ ALL_TOOLS ∧ t.readOnly = true ∧ stripTool t = d)
    ∧ listTools false = ALL_TOOLS.map stripTool
    ∧ List.Sublist (listTools true) (listTools false) := by
  refine ⟨?_, rfl, ?_⟩
  · intro d
    simp only [listTools, if_true, List.mem_map, List.mem_filter]
    constructor
    · rintro ⟨t, ⟨ht, hro⟩, rfl⟩
      exact ⟨t, ht, hro, rfl⟩
    · rintro ⟨t, ht, hro, rfl⟩
      exact ⟨t, ⟨ht, hro⟩, rfl⟩
  · simpa [listTools] using List.Sublist.map stripTool (List.filter_sublist ALL_TOOLS)

/-! ## Claim C8 -/

/-- C8: the structural-validation error message renders every violating
field, as path-joined-by-dots colon reason, joined by a separator after
the prefix "Invalid arguments: " — each violation of the list occurs in
the single message, never only the first one.  (The zod parse is modelled,
per the spec, as carrying the full violation list.) -/
theorem claim8_invalid_arguments_aggregates_all (errs : List FieldError) (e : FieldError)
    (he : e ∈ errs) :
    strContains (GatewayError.invalidArguments errs).message (renderFieldError e) := by
  show (renderFieldError e).data
    <:+: ("Invalid arguments: " ++ joinWith ", " (errs.map renderFieldError)).data
  rw [data_append]
  apply infix_append_right
  exact mem_infix_joinWith _ _ _ (List.mem_map_of_mem _ he)

/-- Witness for C8: with two violations, the second one (not only the
first) occurs in the message. -/
theorem claim8_witness :
    strContains (GatewayError.invalidArguments
        [⟨["project_id"], "Required"⟩, ⟨["page"], "Expected number, received string"⟩]).message
      (renderFieldError ⟨["page"], "Expected number, received string"⟩) :=
  claim8_invalid_arguments_aggregates_all
    [⟨["project_id"], "Required"⟩, ⟨["page"], "Expected number, received string"⟩]
    ⟨["page"], "Expected number, received string"⟩ (by decide)

/-! ## Claim C10 -/

/-- C10: with the arguments object absent, every invocation fails with
"Arguments are required" — uniformly for every name, known or unknown, in
both modes, with no backend call: the presence check precedes the catalog
lookup, the read-only gate and the dispatch switch. -/
theorem claim10_absent_arguments_fail_first (E : External) (B : Backend)
    (mode : Bool) (name : String) :
    handleCall E B mode name none = (Except.error GatewayError.argsRequired, [])
    ∧ GatewayError.argsRequired.message = "Arguments are required" :=
  ⟨rfl, rfl⟩

/-! ## Claim C9 -/

/-- C9 (amended): for list_commits — the pagination checks running first
and passing — a present and non-empty since (or until) value that fails
date validation makes the invocation fail before any backend call, with
the message "since must be a valid ISO 8601 date (YYYY-MM-DDTHH:MM:SSZ)"
(respectively the until message), which contains
"since must be a valid ISO 8601 date" (respectively the until wording);
values passing the truthy date guards are accepted and the backend call is
issued.  An empty-string since or until is present yet skipped by the
truthy guard and forwarded — see the counterexample. -/
theorem claim9_commits_date_cross_validation (E : External) (B : Backend) (raw : RawArgs)
    (a : CommitsArgs) (hp : E.listCommitsSchema raw = Except.ok a)
    (hpag : paginationGuard a.page a.per_page = none) :
    (∀ s, a.since = some s → s ≠ "" → isValidISODate s = false →
        handleCall E B false "list_commits" (some raw)
          = (Except.error (GatewayError.crossField
              "since must be a valid ISO 8601 date (YYYY-MM-DDTHH:MM:SSZ)"), []))
    ∧ (∀ u, a.until_ = some u → u ≠ "" → isValidISODate u = false →
        truthyBadDate a.since = false →
        handleCall E B false "list_commits" (some raw)
          = (Except.error (GatewayError.crossField
              "until must be a valid ISO 8601 date (YYYY-MM-DDTHH:MM:SSZ)"), []))
    ∧ (truthyBadDate a.since = false → truthyBadDate a.until_ = false →
        (handleCall E B false "list_commits" (some raw)).2
          = [BackendCall.listCommits a.project_id a.page a.per_page a.since a.until_ a.options])
    ∧ strContains "since must be a valid ISO 8601 date (YYYY-MM-DDTHH:MM:SSZ)"
        "since must be a valid ISO 8601 date"
    ∧ strContains "until must be a valid ISO 8601 date (YYYY-MM-DDTHH:MM:SSZ)"
        "until must be a valid ISO 8601 date" := by
  have hd : handleCall E B false "list_commits" (some raw)
      = guardedCase B (E.listCommitsSchema raw) commitsGuard
          (fun a => BackendCall.listCommits a.project_id a.page a.per_page a.since a.until_ a.options)
          (fun _ => E.formatCommits) := rfl
  refine ⟨?_, ?_, ?_, by decide, by decide⟩
  · intro s hs hne hbad
    have hg : commitsGuard a
        = some "since must be a valid ISO 8601 date (YYYY-MM-DDTHH:MM:SSZ)" := by
      unfold commitsGuard
      rw [hpag]
      simp [truthyBadDate, hs, hne, hbad]
    rw [hd]
    unfold guardedCase
    rw [hp]
    simp [runParsed, hg, crossFail]
  · intro u hu hne hbad hsince
    have hg : commitsGuard a
        = some "until must be a valid ISO 8601 date (YYYY-MM-DDTHH:MM:SSZ)" := by
      unfold commitsGuard
      rw [hpag]
      have : truthyBadDate a.until_ = true := by
        simp [truthyBadDate, hu, hne, hbad]
      simp [this, hsince, truthyBadDate] at *
      simp [hsince, this]
    rw [hd]
    unfold guardedCase
    rw [hp]
    simp [runParsed, hg, crossFail]
  · intro hsince huntil
    have hg : commitsGuard a = none := by
      unfold commitsGuard
      rw [hpag]
      simp [hsince, huntil]
    rw [hd]
    unfold guardedCase
    rw [hp]
    simp [runParsed, hg, invoke_trace]

/-- Witness for C9: the spec scenario, since "not-a-date". -/
theorem claim9_witness :
    handleCall extCommitsBadSince noBackend false "list_commits" (some [])
      = (Except.error (GatewayError.crossField
          "since must be a valid ISO 8601 date (YYYY-MM-DDTHH:MM:SSZ)"), []) :=
  (claim9_commits_date_cross_validation extCommitsBadSince noBackend []
      (CommitsArgs.mk "123" none none (some "not-a-date") none []) rfl rfl).1
    "not-a-date" rfl (by decide) (by decide)

/-- Counterexample for C9 as stated: the empty string is a present since
value and is not a valid calendar date-time, yet the truthy guard
`args.since && ...` skips it: the invocation does not fail — the backend
call is issued with the empty since and the call succeeds. -/
theorem claim9_counterexample :
    isValidISODate "" = false
    ∧ handleCall extCommitsEmptySince okBackend false "list_commits" (some [])
      = (Except.ok (textResponse "[]"),
         [BackendCall.listCommits "123" none none (some "") none []]) :=
  ⟨rfl, rfl⟩

/-! ## Claim C6 -/

/-- The push_files loop on a file list whose prefix succeeds and whose
next file fails: exactly the calls for the prefix and the failing file are
issued, in order, and the loop fails with the backend error. -/
theorem pushLoop_abort (B : Backend) (pid msg br : String) (f : FileOp) (e : String)
    (post : List FileOp) :
    ∀ pre : List FileOp,
      (∀ g ∈ pre, ∃ r, B (mkPush pid msg br g) = Except.ok r) →
      B (mkPush pid msg br f) = Except.error e →
      pushFilesLoop B pid msg br (pre ++ f :: post)
        = (Except.error e, (pre ++ [f]).map (mkPush pid msg br)) := by
  intro pre
  induction pre with
  | nil =>
    intro _ hf
    simp [pushFilesLoop, hf]
  | cons g pre ih =>
    intro hpre hf
    obtain ⟨r, hr⟩ := hpre g (List.mem_cons_self g pre)
    have hrec := ih (fun x hx => hpre x (List.mem_cons_of_mem _ hx)) hf
    simp [pushFilesLoop, hr, hrec, Except.map]

/-- The push_files loop issues one call per file, in list order, when
every call succeeds. -/
theorem pushLoop_all_ok (B : Backend) (pid msg br : String) :
    ∀ files : List FileOp,
      (∀ g ∈ files, ∃ r, B (mkPush pid msg br g) = Except.ok r) →
      (pushFilesLoop B pid msg br files).2 = files.map (mkPush pid msg br) := by
  intro files
  induction files with
  | nil => intro _; rfl
  | cons g fs ih =>
    intro hall
    obtain ⟨r, hr⟩ := hall g (List.mem_cons_self g fs)
    have hrec := ih (fun x hx => hall x (List.mem_cons_of_mem _ hx))
    simp [pushFilesLoop, hr, hrec]

/-- C6: push_files issues one createOrUpdateFile call per entry of its
file list, sequentially in list order, and aborts at the first failing
call — when the files split as a succeeding prefix, a failing file and a
remainder, the backend receives exactly the calls for the prefix and the
failing file (the committed prefix is not rolled back), the remainder is
never attempted, and the invocation fails with the backend error; when
every call succeeds, the trace is one call per file in list order. -/
theorem claim6_push_files_sequential_abort (E : External) (B : Backend) (raw : RawArgs)
    (a : PushFilesArgs) (hp : E.pushFilesSchema raw = Except.ok a) :
    (∀ pre f post e, a.files = pre ++ f :: post →
        (∀ g ∈ pre, ∃ r, B (mkPush a.project_id a.commit_message a.branch g) = Except.ok r) →
        B (mkPush a.project_id a.commit_message a.branch f) = Except.error e →
        handleCall E B false "push_files" (some raw)
          = (Except.error (GatewayError.backend e),
             (pre ++ [f]).map (mkPush a.project_id a.commit_message a.branch)))
    ∧ ((∀ g ∈ a.files, ∃ r, B (mkPush a.project_id a.commit_message a.branch g) = Except.ok r) →
        (handleCall E B false "push_files" (some raw)).2
          = a.files.map (mkPush a.project_id a.commit_message a.branch)) := by
  have hd : handleCall E B false "push_files" (some raw)
      = pushFilesCase B (E.pushFilesSchema raw) := rfl
  constructor
  · intro pre f post e hfiles hpre hf
    have hloop := pushLoop_abort B a.project_id a.commit_message a.branch f e post pre hpre hf
    rw [hd]
    unfold pushFilesCase
    rw [hp]
    simp [runParsed, hfiles, hloop]
  · intro hall
    rw [hd]
    unfold pushFilesCase
    rw [hp]
    have htrace := pushLoop_all_ok B a.project_id a.commit_message a.branch a.files hall
    simp [runParsed]
    cases hres : (pushFilesLoop B a.project_id a.commit_message a.branch a.files).1 <;>
      simp [hres, htrace]

/-- Witness for C6: three files, the write of the second fails — the first
write is committed on the backend, the third is never attempted, the call
fails. -/
theorem claim6_witness :
    handleCall extPushThree pushBackend false "push_files" (some [])
      = (Except.error (GatewayError.backend "write failed"),
         [BackendCall.createOrUpdateFile "123" "a.txt" "A" "msg" "main" none,
          BackendCall.createOrUpdateFile "123" "b.txt" "B" "msg" "main" none]) :=
  (claim6_push_files_sequential_abort extPushThree pushBackend []
      (PushFilesArgs.mk "123" "msg" "main" threeFiles) rfl).1
    [⟨"a.txt", "A"⟩] ⟨"b.txt", "B"⟩ [⟨"c.txt", "C"⟩] "write failed" rfl
    (by intro g hg; simp at hg; subst hg; exact ⟨"ok", rfl⟩) rfl

end Gitlab
